import Mathlib

/-!
Verification of the producer/consumer frame pipeline of `tridigenerator_player`.

The development shallowly embeds the two consumer/producer implementations of
the repository:

* `FrameLoaderModel` models `FrameLoaderSystem` (ECS variant): the ring of
  `FrameSlot`s with `ready` flags and pool-pointer `frame` members, the
  indices `writeIdx`/`readIdx`, the playback clock `nextReadTime`, the
  consumer `SwapNextFrame`, the body of the producer `WriterLoop`,
  `ComputeFreeSlots`, and the `LoadManifest` state reset.
* `FrameLoaderOld` models the earlier `FrameLoader` class
  (`Src/Unsorted/FrameLoader.cpp`): its `ComputeFreeSlots` (with explicit
  clamping) and its consumer `ReadFrameIfNeeded`.
* `WriterCtl` models the start/stop lifecycle of the background writer
  thread (`StartBackgroundWriter` / `StopBackgroundWriter`).

C++ `double` time values are modelled as exact rationals; C++ `int` values as
`Int` (no intermediate result here approaches the 32-bit range on the stated
domains); ring indices, which the code keeps in `[0, RING_SIZE)` by always
advancing modulo `RING_SIZE`, as `Nat`.
-/

namespace FrameLoaderModel

/-- `static constexpr int RING_SIZE = 8;` from `FrameLoaderSystem`. -/
def RING_SIZE : Nat := 8

/-- The parts of `FrameLoaderState` (FrameLoaderState.h) that the claims
concern.  `ready i` is `ring[i].ready`; `frame i` models the pointer member
`ring[i].frame` (`none` = `nullptr`, `some k` = `&framePool[k]`); `framePtr`
models `flS.framePtr` (`none` = `nullptr`, `some k` = `&ring[k].frame`).
`writerRunning` and `looping` live in `FrameLoaderComponent` in the C++ but
are carried here in the same record for a single-state step relation. -/
structure MState where
  ready : Nat → Bool
  frame : Nat → Option Nat
  writeIdx : Nat
  readIdx : Nat
  nextReadTime : ℚ
  framePtr : Option Nat
  frameReady : Bool
  writerRunning : Bool

/-- `FrameLoaderSystem::ComputeFreeSlots`: `usedSlots = (w - r + RING_SIZE) %
RING_SIZE` with C++ `int` arithmetic (truncated remainder, `Int.tmod`), then
`RING_SIZE - usedSlots - 1`.  No clamping in this variant. -/
def ComputeFreeSlots (w r : Int) : Int :=
  let usedSlots := Int.tmod (w - r + (RING_SIZE : Int)) (RING_SIZE : Int)
  (RING_SIZE : Int) - usedSlots - 1

/-- `FrameLoaderSystem::SwapNextFrame`.  Returns the C++ return value and the
updated state.  `fps` is `flC.fps`; invalid `fps <= 0` is clamped to `1`;
the timing update happens before the ready check, with the anti-drift reset
to `nowSeconds + period`. -/
def SwapNextFrame (nowSeconds : ℚ) (fps : Int) (flS : MState) : Bool × MState :=
  let localFps : Int := if fps ≤ 0 then 1 else fps
  let period : ℚ := 1 / (localFps : ℚ)
  if nowSeconds < flS.nextReadTime then
    (false, flS)
  else
    let advanced := flS.nextReadTime + period
    let nextT := if advanced ≤ nowSeconds then nowSeconds + period else advanced
    let flS1 : MState := { flS with nextReadTime := nextT }
    let currentReadSlot := flS1.readIdx
    if flS1.ready currentReadSlot = false then
      (false, flS1)
    else
      (true, { flS1 with
        framePtr := some currentReadSlot
        frameReady := true
        ready := Function.update flS1.ready currentReadSlot false
        readIdx := (currentReadSlot + 1) % RING_SIZE })

/-- Control-flow outcome of one iteration of the inner `for` loop of
`FrameLoaderSystem::WriterLoop`. -/
inductive WriterOutcome where
  | notRunning
  | ringFull
  | slotBusy
  | stopped
  | looped
  | produced
deriving DecidableEq

/-- One iteration of the inner `for` body of `FrameLoaderSystem::WriterLoop`
(lines re-checking free slots, picking `slot = writeIdx`, decoding, and
publishing).  `decodeOk` is the boolean returned by
`demuxer.decode_next_frame` (false covers both end-of-stream and decode
errors: the API returns only a bool); `seekOk` the result of
`demuxer.seek_to_start`.  Also returns the number of `seek_to_start` calls
made in this iteration. -/
def WriterBody (looping decodeOk seekOk : Bool) (s : MState) :
    MState × WriterOutcome × Nat :=
  if s.writerRunning = false then (s, .notRunning, 0)
  else if ComputeFreeSlots (s.writeIdx : Int) (s.readIdx : Int) = 0 then
    (s, .ringFull, 0)
  else
    let slot := s.writeIdx
    if s.ready slot = false then
      let s1 : MState := { s with frame := Function.update s.frame slot (some slot) }
      if decodeOk = false then
        if looping = false then ({ s1 with writerRunning := false }, .stopped, 0)
        else if seekOk = false then ({ s1 with writerRunning := false }, .stopped, 1)
        else (s1, .looped, 1)
      else
        let s2 : MState := { s1 with ready := Function.update s1.ready slot true }
        ({ s2 with writeIdx := (slot + 1) % RING_SIZE }, .produced, 0)
    else (s, .slotBusy, 0)

/-- The state effect of a successful `FrameLoaderSystem::LoadManifest` on the
`FrameLoaderState`: store 0 into `writeIdx` and `readIdx` and set
`nextReadTime` to the current time.  Ring slots (`ready` flags and `frame`
pointers), `framePtr` and `frameReady` are not touched. -/
def LoadManifestReset (now : ℚ) (s : MState) : MState :=
  { s with writeIdx := 0, readIdx := 0, nextReadTime := now }

/-- The state of `FrameLoaderState` right after `FrameLoaderSystem::Init`
resized the pool and ring (all `FrameSlot`s default-constructed:
`ready = false`, `frame = nullptr`) and `LoadManifest` reset the indices and
clock, with the writer started. -/
def InitState (t0 : ℚ) : MState where
  ready := fun _ => false
  frame := fun _ => none
  writeIdx := 0
  readIdx := 0
  nextReadTime := t0
  framePtr := none
  frameReady := false
  writerRunning := true

/-- Interleaving of producer iterations (`WriterBody`, with arbitrary decode
and seek results and looping setting) and consumer calls (`SwapNextFrame`
with arbitrary clock and fps). -/
inductive Step : MState → MState → Prop where
  | prod (looping decodeOk seekOk : Bool) (s : MState) :
      Step s (WriterBody looping decodeOk seekOk s).1
  | cons (now : ℚ) (fps : Int) (s : MState) :
      Step s (SwapNextFrame now fps s).2

/-- Reachability from the initial (post-`Init`) state. -/
def Reachable (s : MState) : Prop :=
  ∃ t0 : ℚ, Relation.ReflTransGen Step (InitState t0) s

/-- Slot `i` lies in the occupied range `[readIdx, writeIdx)` taken modulo
`RING_SIZE`. -/
def InOccupied (r w i : Nat) : Prop :=
  (i + RING_SIZE - r) % RING_SIZE < (w + RING_SIZE - r) % RING_SIZE

instance (r w i : Nat) : Decidable (InOccupied r w i) := by
  unfold InOccupied; infer_instance

/-- The ring invariant: indices in range, a slot ready exactly when it is in
the occupied range, and every slot's `frame` pointer null or aliasing its own
pool entry. -/
def Inv (s : MState) : Prop :=
  s.readIdx < RING_SIZE ∧ s.writeIdx < RING_SIZE ∧
  (∀ i, i < RING_SIZE → (s.ready i = true ↔ InOccupied s.readIdx s.writeIdx i)) ∧
  (∀ i, s.frame i = none ∨ s.frame i = some i)

end FrameLoaderModel

namespace FrameLoaderOld

/-- `static constexpr int RING_SIZE = 8;` from `Src/Unsorted/FrameLoader.h`. -/
def RING_SIZE : Nat := 8

/-- The parts of the earlier `FrameLoader` class (`Src/Unsorted/FrameLoader.h`
/ `.cpp`) that the claims concern.  This variant stores decoded bytes by value
in each slot (`FrameSlot.data`, modelled abstractly as a byte list) and moves
them into `currentFrame` on consumption. -/
structure OldState where
  ready : Nat → Bool
  data : Nat → List Nat
  currentFrame : List Nat
  writeIdx : Nat
  readIdx : Nat
  nextReadTime : ℚ

/-- `FrameLoader::ComputeFreeSlots`: same circular-buffer arithmetic as the
system variant, but with an explicit clamp `if (freeSlots < 0) freeSlots = 0`. -/
def ComputeFreeSlots (w r : Int) : Int :=
  let occupied := Int.tmod (w - r + (RING_SIZE : Int)) (RING_SIZE : Int)
  let freeSlots := (RING_SIZE : Int) - occupied - 1
  if freeSlots < 0 then 0 else freeSlots

/-- `FrameLoader::ReadFrameIfNeeded`.  Identical timing gate to
`SwapNextFrame`, but the tick-skip branch (slot not ready) advances
`nextReadTime` by exactly one period with no anti-drift reset; only the
successful-consume branch clamps to `nowSeconds + period`. -/
def ReadFrameIfNeeded (nowSeconds : ℚ) (fps : Int) (st : OldState) :
    Bool × OldState :=
  let localFps : Int := if fps ≤ 0 then 1 else fps
  let period : ℚ := 1 / (localFps : ℚ)
  if nowSeconds < st.nextReadTime then
    (false, st)
  else
    let slot := st.readIdx
    if st.ready slot = false then
      (false, { st with nextReadTime := st.nextReadTime + period })
    else
      let st1 : OldState := { st with
        currentFrame := st.data slot
        data := Function.update st.data slot []
        ready := Function.update st.ready slot false
        readIdx := (slot + 1) % RING_SIZE }
      let advanced := st1.nextReadTime + period
      let st2 : OldState := { st1 with
        nextReadTime := if advanced ≤ nowSeconds then nowSeconds + period else advanced }
      (true, st2)

end FrameLoaderOld

namespace WriterCtl

/-- Lifecycle state of the background writer: the `writerRunning` atomic flag
and the number of live (still executing) writer threads. -/
structure Ctl where
  writerRunning : Bool
  liveThreads : Nat
deriving DecidableEq

/-- `FrameLoaderSystem::StartBackgroundWriter`: compare-exchange
`writerRunning` false→true; if it was already true, return without spawning.
The second component records whether a thread was spawned. -/
def StartBackgroundWriter (c : Ctl) : Ctl × Bool :=
  if c.writerRunning = true then (c, false)
  else ({ writerRunning := true, liveThreads := c.liveThreads + 1 }, true)

/-- `FrameLoaderSystem::StopBackgroundWriter`: compare-exchange
`writerRunning` true→false; if it was already false, return without touching
anything; otherwise notify and join the writer thread (the joined thread is
no longer live). -/
def StopBackgroundWriter (c : Ctl) : Ctl :=
  if c.writerRunning = false then c
  else { writerRunning := false, liveThreads := c.liveThreads - 1 }

/-- Lifecycle steps: `Start`, `Stop`, and the writer thread exiting on its own
(end-of-stream with looping disabled, seek failure, or demuxer-init failure:
the loop stores `writerRunning = false` and returns). -/
inductive CtlStep : Ctl → Ctl → Prop where
  | start (c : Ctl) : CtlStep c (StartBackgroundWriter c).1
  | stop (c : Ctl) : CtlStep c (StopBackgroundWriter c)
  | selfExit (c : Ctl) : 1 ≤ c.liveThreads →
      CtlStep c { writerRunning := false, liveThreads := c.liveThreads - 1 }

/-- Before any start: not running, no live writer thread. -/
def initCtl : Ctl := { writerRunning := false, liveThreads := 0 }

/-- Lifecycle states reachable from the never-started state. -/
def CtlReachable (c : Ctl) : Prop :=
  Relation.ReflTransGen CtlStep initCtl c

/-- The lifecycle invariant: exactly one live writer thread while
`writerRunning`, none otherwise. -/
def CtlInv (c : Ctl) : Prop :=
  c.liveThreads = if c.writerRunning then 1 else 0

end WriterCtl

namespace FrameLoaderModel

/-- The frame period computed at the top of `SwapNextFrame`: `1.0 / localFps`
after clamping `fps <= 0` to `1`. -/
def framePeriod (fps : Int) : ℚ :=
  1 / ((if fps ≤ 0 then 1 else fps : Int) : ℚ)

lemma framePeriod_pos (fps : Int) : 0 < framePeriod fps := by
  unfold framePeriod
  split
  · norm_num
  · next h =>
    have h1 : (1 : Int) ≤ fps := by omega
    have : (0 : ℚ) < (fps : ℚ) := by exact_mod_cast lt_of_lt_of_le Int.zero_lt_one h1
    positivity

lemma swapNextFrame_not_due (now : ℚ) (fps : Int) (s : MState)
    (h : now < s.nextReadTime) :
    SwapNextFrame now fps s = (false, s) := by
  unfold SwapNextFrame
  rw [if_pos h]

lemma swapNextFrame_skip (now : ℚ) (fps : Int) (s : MState)
    (h : ¬ now < s.nextReadTime) (hr : s.ready s.readIdx = false) :
    SwapNextFrame now fps s = (false,
      { s with
        nextReadTime :=
          if s.nextReadTime + framePeriod fps ≤ now then now + framePeriod fps
          else s.nextReadTime + framePeriod fps }) := by
  unfold SwapNextFrame framePeriod
  rw [if_neg h]
  simp [hr]

lemma swapNextFrame_consume (now : ℚ) (fps : Int) (s : MState)
    (h : ¬ now < s.nextReadTime) (hr : s.ready s.readIdx = true) :
    SwapNextFrame now fps s = (true,
      { s with
        nextReadTime :=
          (if s.nextReadTime + framePeriod fps ≤ now then now + framePeriod fps
           else s.nextReadTime + framePeriod fps),
        framePtr := some s.readIdx,
        frameReady := true,
        ready := Function.update s.ready s.readIdx false,
        readIdx := (s.readIdx + 1) % RING_SIZE }) := by
  unfold SwapNextFrame framePeriod
  rw [if_neg h]
  simp [hr]

end FrameLoaderModel

/-- C7: for every pair of indices `writeIdx`, `readIdx` in `[0, RING_SIZE)`,
`ComputeFreeSlots` (both the `FrameLoaderSystem` variant and the clamping
`FrameLoader` variant) returns `RING_SIZE - occupied - 1` where `occupied =
(writeIdx - readIdx + RING_SIZE) mod RING_SIZE`, clamped to be nonnegative,
and the returned value always lies in `[0, RING_SIZE - 1]`. -/
theorem C7_compute_free_slots (w r : Int)
    (hw0 : 0 ≤ w) (hw : w < (FrameLoaderModel.RING_SIZE : Int))
    (hr0 : 0 ≤ r) (hr : r < (FrameLoaderModel.RING_SIZE : Int)) :
    FrameLoaderModel.ComputeFreeSlots w r =
      max 0 ((FrameLoaderModel.RING_SIZE : Int) -
        (w - r + (FrameLoaderModel.RING_SIZE : Int)) % (FrameLoaderModel.RING_SIZE : Int) - 1) ∧
    FrameLoaderOld.ComputeFreeSlots w r = FrameLoaderModel.ComputeFreeSlots w r ∧
    0 ≤ FrameLoaderModel.ComputeFreeSlots w r ∧
    FrameLoaderModel.ComputeFreeSlots w r ≤ (FrameLoaderModel.RING_SIZE : Int) - 1 := by
  have hw8 : w < 8 := hw
  have hr8 : r < 8 := hr
  interval_cases w <;> interval_cases r <;> decide

/-- Witness for C7 at `writeIdx = 3`, `readIdx = 5`. -/
theorem C7_compute_free_slots_witness :
    (0 ≤ (3 : Int) ∧ (3 : Int) < (FrameLoaderModel.RING_SIZE : Int) ∧
     0 ≤ (5 : Int) ∧ (5 : Int) < (FrameLoaderModel.RING_SIZE : Int)) ∧
    (FrameLoaderModel.ComputeFreeSlots 3 5 =
      max 0 ((FrameLoaderModel.RING_SIZE : Int) -
        ((3 : Int) - 5 + (FrameLoaderModel.RING_SIZE : Int)) % (FrameLoaderModel.RING_SIZE : Int) - 1) ∧
    FrameLoaderOld.ComputeFreeSlots 3 5 = FrameLoaderModel.ComputeFreeSlots 3 5 ∧
    0 ≤ FrameLoaderModel.ComputeFreeSlots 3 5 ∧
    FrameLoaderModel.ComputeFreeSlots 3 5 ≤ (FrameLoaderModel.RING_SIZE : Int) - 1) :=
  ⟨by decide, C7_compute_free_slots 3 5 (by decide) (by decide) (by decide) (by decide)⟩

/-- A sample `FrameLoaderState` for witnesses: slot 0 ready, pool pointer set
for slot 0, `writeIdx = 1`, `readIdx = 0`, `nextReadTime = 5`. -/
def sampleReady0 : FrameLoaderModel.MState where
  ready := fun i => decide (i = 0)
  frame := fun i => if i = 0 then some 0 else none
  writeIdx := 1
  readIdx := 0
  nextReadTime := 5
  framePtr := none
  frameReady := false
  writerRunning := true

/-- A sample `FrameLoaderState` for witnesses: no slot ready, `nextReadTime = 5`. -/
def sampleEmpty : FrameLoaderModel.MState where
  ready := fun _ => false
  frame := fun _ => none
  writeIdx := 0
  readIdx := 0
  nextReadTime := 5
  framePtr := none
  frameReady := false
  writerRunning := true

/-- C2: if `SwapNextFrame` is called with `nowSeconds >= nextReadTime` and the
slot at `readIdx` has `ready == true`, it returns true, publishes
`framePtr = &ring[readIdx].frame`, stores false into that slot's ready flag,
advances `readIdx` to `(readIdx + 1) mod RING_SIZE`, and leaves `writeIdx`
and every other slot's ready flag unchanged. -/
theorem C2_swap_next_frame_consume (now : ℚ) (fps : Int) (s : FrameLoaderModel.MState)
    (hdue : ¬ now < s.nextReadTime) (hready : s.ready s.readIdx = true) :
    (FrameLoaderModel.SwapNextFrame now fps s).1 = true ∧
    (FrameLoaderModel.SwapNextFrame now fps s).2.framePtr = some s.readIdx ∧
    (FrameLoaderModel.SwapNextFrame now fps s).2.ready s.readIdx = false ∧
    (FrameLoaderModel.SwapNextFrame now fps s).2.readIdx =
      (s.readIdx + 1) % FrameLoaderModel.RING_SIZE ∧
    (FrameLoaderModel.SwapNextFrame now fps s).2.writeIdx = s.writeIdx ∧
    ∀ i, i ≠ s.readIdx → (FrameLoaderModel.SwapNextFrame now fps s).2.ready i = s.ready i := by
  rw [FrameLoaderModel.swapNextFrame_consume now fps s hdue hready]
  refine ⟨rfl, rfl, ?_, rfl, rfl, ?_⟩
  · simp
  · intro i hi
    simp [Function.update_noteq hi]

/-- Witness for C2 on `sampleReady0` at `now = 5`, `fps = 2`:
hypotheses hold and the consume effects are observed (the unchanged-slot
clause is checked at slot 5). -/
theorem C2_swap_next_frame_consume_witness :
    (¬ (5 : ℚ) < sampleReady0.nextReadTime) ∧
    sampleReady0.ready sampleReady0.readIdx = true ∧
    (FrameLoaderModel.SwapNextFrame 5 2 sampleReady0).1 = true ∧
    (FrameLoaderModel.SwapNextFrame 5 2 sampleReady0).2.framePtr = some 0 ∧
    (FrameLoaderModel.SwapNextFrame 5 2 sampleReady0).2.ready 0 = false ∧
    (FrameLoaderModel.SwapNextFrame 5 2 sampleReady0).2.readIdx = 1 ∧
    (FrameLoaderModel.SwapNextFrame 5 2 sampleReady0).2.writeIdx = 1 ∧
    (FrameLoaderModel.SwapNextFrame 5 2 sampleReady0).2.ready 5 = sampleReady0.ready 5 := by
  have h := C2_swap_next_frame_consume 5 2 sampleReady0 (by decide) (by decide)
  exact ⟨by decide, by decide, h.1, h.2.1, h.2.2.1, h.2.2.2.1, h.2.2.2.2.1,
    h.2.2.2.2.2 5 (by decide)⟩

/-- C3: `SwapNextFrame` returns false exactly when the tick is not due or the
slot at `readIdx` is not ready; a not-due call has no side effects at all,
and a due call with an unready slot advances `nextReadTime` (strictly, so
the tick is never retried at the same scheduled time) while leaving
`readIdx`, `writeIdx`, every ready flag, every slot frame pointer,
`framePtr` and `frameReady` unchanged. -/
theorem C3_swap_next_frame_false_cases (now : ℚ) (fps : Int) (s : FrameLoaderModel.MState) :
    ((FrameLoaderModel.SwapNextFrame now fps s).1 = false ↔
      (now < s.nextReadTime ∨ s.ready s.readIdx = false)) ∧
    (now < s.nextReadTime → (FrameLoaderModel.SwapNextFrame now fps s).2 = s) ∧
    (¬ now < s.nextReadTime → s.ready s.readIdx = false →
      (s.nextReadTime < (FrameLoaderModel.SwapNextFrame now fps s).2.nextReadTime ∧
       (FrameLoaderModel.SwapNextFrame now fps s).2.readIdx = s.readIdx ∧
       (FrameLoaderModel.SwapNextFrame now fps s).2.writeIdx = s.writeIdx ∧
       (∀ i, (FrameLoaderModel.SwapNextFrame now fps s).2.ready i = s.ready i) ∧
       (∀ i, (FrameLoaderModel.SwapNextFrame now fps s).2.frame i = s.frame i) ∧
       (FrameLoaderModel.SwapNextFrame now fps s).2.framePtr = s.framePtr ∧
       (FrameLoaderModel.SwapNextFrame now fps s).2.frameReady = s.frameReady)) := by
  have hp := FrameLoaderModel.framePeriod_pos fps
  by_cases h : now < s.nextReadTime
  · rw [FrameLoaderModel.swapNextFrame_not_due now fps s h]
    exact ⟨by simp [h], fun _ => rfl, fun h' _ => absurd h h'⟩
  · cases hr : s.ready s.readIdx with
    | false =>
      rw [FrameLoaderModel.swapNextFrame_skip now fps s h hr]
      have hle : s.nextReadTime ≤ now := le_of_not_lt h
      refine ⟨by simp [h, hr], fun h' => absurd h' h, fun _ _ => ⟨?_, rfl, rfl,
        fun i => rfl, fun i => rfl, rfl, rfl⟩⟩
      by_cases hc : s.nextReadTime + FrameLoaderModel.framePeriod fps ≤ now
      · simpa [hc] using by linarith
      · simpa [hc] using by linarith
    | true =>
      rw [FrameLoaderModel.swapNextFrame_consume now fps s h hr]
      exact ⟨by simp [h, hr], fun h' => absurd h' h, fun _ h'' => by simp [hr] at h''⟩

/-- Witness for C3 exercising the due-but-unready branch on `sampleEmpty`
at `now = 6`, `fps = 2` (period `1/2`): returns false, `nextReadTime`
advances strictly, nothing else changes (ready flag checked at slot 0). -/
theorem C3_swap_next_frame_false_cases_witness :
    (¬ (6 : ℚ) < sampleEmpty.nextReadTime) ∧
    sampleEmpty.ready sampleEmpty.readIdx = false ∧
    (FrameLoaderModel.SwapNextFrame 6 2 sampleEmpty).1 = false ∧
    sampleEmpty.nextReadTime < (FrameLoaderModel.SwapNextFrame 6 2 sampleEmpty).2.nextReadTime ∧
    (FrameLoaderModel.SwapNextFrame 6 2 sampleEmpty).2.readIdx = sampleEmpty.readIdx ∧
    (FrameLoaderModel.SwapNextFrame 6 2 sampleEmpty).2.writeIdx = sampleEmpty.writeIdx ∧
    (FrameLoaderModel.SwapNextFrame 6 2 sampleEmpty).2.ready 0 = sampleEmpty.ready 0 := by
  have h := C3_swap_next_frame_false_cases 6 2 sampleEmpty
  have h3 := h.2.2 (by decide) (by decide)
  exact ⟨by decide, by decide, (h.1).mpr (Or.inr (by decide)), h3.1, h3.2.1, h3.2.2.1,
    h3.2.2.2.1 0⟩

/-- A sample old-`FrameLoader` state for the C4 analysis: nothing ready,
`nextReadTime = 0`. -/
def oldSampleEmpty : FrameLoaderOld.OldState where
  ready := fun _ => false
  data := fun _ => []
  currentFrame := []
  writeIdx := 0
  readIdx := 0
  nextReadTime := 0

/-- A sample old-`FrameLoader` state with slot 0 ready. -/
def oldSampleReady0 : FrameLoaderOld.OldState where
  ready := fun i => decide (i = 0)
  data := fun i => if i = 0 then [7] else []
  currentFrame := []
  writeIdx := 1
  readIdx := 0
  nextReadTime := 5

/-- C4 (amended): in `FrameLoaderSystem::SwapNextFrame` every due-tick update
leaves `nextReadTime` strictly above the `nowSeconds` used to compute it,
equal to `oldNextReadTime + period` when that exceeds `nowSeconds` and to
`nowSeconds + period` otherwise (`fps <= 0` clamped to 1), including ticks on
which no frame turned out to be ready.  In `FrameLoader::ReadFrameIfNeeded`
this holds only for the successful-consume update; a due tick that finds no
ready frame advances `nextReadTime` by exactly one period with no anti-drift
reset, so the result can remain at or below `nowSeconds`. -/
theorem C4_next_read_time_update (now : ℚ) (fps : Int)
    (s : FrameLoaderModel.MState) (t : FrameLoaderOld.OldState)
    (hdue : ¬ now < s.nextReadTime) (hdueOld : ¬ now < t.nextReadTime) :
    (now < (FrameLoaderModel.SwapNextFrame now fps s).2.nextReadTime ∧
     (FrameLoaderModel.SwapNextFrame now fps s).2.nextReadTime =
       (if now < s.nextReadTime + FrameLoaderModel.framePeriod fps
        then s.nextReadTime + FrameLoaderModel.framePeriod fps
        else now + FrameLoaderModel.framePeriod fps)) ∧
    (t.ready t.readIdx = true →
      (now < (FrameLoaderOld.ReadFrameIfNeeded now fps t).2.nextReadTime ∧
       (FrameLoaderOld.ReadFrameIfNeeded now fps t).2.nextReadTime =
         (if now < t.nextReadTime + FrameLoaderModel.framePeriod fps
          then t.nextReadTime + FrameLoaderModel.framePeriod fps
          else now + FrameLoaderModel.framePeriod fps))) ∧
    (t.ready t.readIdx = false →
      (FrameLoaderOld.ReadFrameIfNeeded now fps t).2.nextReadTime =
        t.nextReadTime + FrameLoaderModel.framePeriod fps) := by
  have hp := FrameLoaderModel.framePeriod_pos fps
  have hles : s.nextReadTime ≤ now := le_of_not_lt hdue
  have hlet : t.nextReadTime ≤ now := le_of_not_lt hdueOld
  refine ⟨?_, ?_, ?_⟩
  · have hval : (FrameLoaderModel.SwapNextFrame now fps s).2.nextReadTime =
        (if s.nextReadTime + FrameLoaderModel.framePeriod fps ≤ now
         then now + FrameLoaderModel.framePeriod fps
         else s.nextReadTime + FrameLoaderModel.framePeriod fps) := by
      cases hr : s.ready s.readIdx with
      | false => rw [FrameLoaderModel.swapNextFrame_skip now fps s hdue hr]
      | true => rw [FrameLoaderModel.swapNextFrame_consume now fps s hdue hr]
    rw [hval]
    constructor
    · by_cases hc : s.nextReadTime + FrameLoaderModel.framePeriod fps ≤ now
      · rw [if_pos hc]; linarith
      · rw [if_neg hc]; push_neg at hc; linarith
    · by_cases hc : s.nextReadTime + FrameLoaderModel.framePeriod fps ≤ now
      · rw [if_pos hc, if_neg (by linarith)]
      · rw [if_neg hc]; push_neg at hc; rw [if_pos hc]
  · intro hr
    have hval : (FrameLoaderOld.ReadFrameIfNeeded now fps t).2.nextReadTime =
        (if t.nextReadTime + FrameLoaderModel.framePeriod fps ≤ now
         then now + FrameLoaderModel.framePeriod fps
         else t.nextReadTime + FrameLoaderModel.framePeriod fps) := by
      unfold FrameLoaderOld.ReadFrameIfNeeded FrameLoaderModel.framePeriod
      rw [if_neg hdueOld]
      simp [hr]
    rw [hval]
    constructor
    · by_cases hc : t.nextReadTime + FrameLoaderModel.framePeriod fps ≤ now
      · rw [if_pos hc]; linarith
      · rw [if_neg hc]; push_neg at hc; linarith
    · by_cases hc : t.nextReadTime + FrameLoaderModel.framePeriod fps ≤ now
      · rw [if_pos hc, if_neg (by linarith)]
      · rw [if_neg hc]; push_neg at hc; rw [if_pos hc]
  · intro hr
    unfold FrameLoaderOld.ReadFrameIfNeeded FrameLoaderModel.framePeriod
    rw [if_neg hdueOld]
    simp [hr]

/-- C4 counterexample: in `FrameLoader::ReadFrameIfNeeded`, a due tick
(`nowSeconds = 10`, `nextReadTime = 0`, `fps = 1`) that finds no ready frame
updates `nextReadTime` to `1`, which is not strictly greater than the
`nowSeconds` used to compute it, and differs from `nowSeconds + period = 11`. -/
theorem C4_counterexample_unclamped_tick_skip :
    (¬ (10 : ℚ) < oldSampleEmpty.nextReadTime) ∧
    (FrameLoaderOld.ReadFrameIfNeeded 10 1 oldSampleEmpty).1 = false ∧
    (FrameLoaderOld.ReadFrameIfNeeded 10 1 oldSampleEmpty).2.nextReadTime = 1 ∧
    ¬ (10 : ℚ) < (FrameLoaderOld.ReadFrameIfNeeded 10 1 oldSampleEmpty).2.nextReadTime := by
  have hv : FrameLoaderOld.ReadFrameIfNeeded 10 1 oldSampleEmpty =
      (false, { oldSampleEmpty with nextReadTime := oldSampleEmpty.nextReadTime + 1 }) := by
    unfold FrameLoaderOld.ReadFrameIfNeeded oldSampleEmpty
    norm_num
  rw [hv]
  unfold oldSampleEmpty
  norm_num

/-- Witness for C4 at `now = 6`, `fps = 2` on `sampleEmpty` (system variant,
tick with no ready frame) and `oldSampleReady0` (old variant, successful
consume). -/
theorem C4_next_read_time_update_witness :
    (¬ (6 : ℚ) < sampleEmpty.nextReadTime) ∧
    (¬ (6 : ℚ) < oldSampleReady0.nextReadTime) ∧
    oldSampleReady0.ready oldSampleReady0.readIdx = true ∧
    (6 : ℚ) < (FrameLoaderModel.SwapNextFrame 6 2 sampleEmpty).2.nextReadTime ∧
    (6 : ℚ) < (FrameLoaderOld.ReadFrameIfNeeded 6 2 oldSampleReady0).2.nextReadTime := by
  have h := C4_next_read_time_update 6 2 sampleEmpty oldSampleReady0 (by decide) (by decide)
  exact ⟨by decide, by decide, by decide, h.1.1, (h.2.1 (by decide)).1⟩

/-- C5: when `decode_next_frame` returns false in the producer loop body
(the code labels every false return end-of-stream): looping disabled stops
the writer (`writerRunning := false`, loop exited, no seek); looping enabled
calls `seek_to_start` exactly once; a failed seek stops the writer; a
successful seek continues the loop without advancing `writeIdx` and without
setting any ready flag. -/
theorem C5_end_of_stream_handling (seekOk : Bool) (s : FrameLoaderModel.MState)
    (hrun : s.writerRunning = true)
    (hfree : FrameLoaderModel.ComputeFreeSlots (s.writeIdx : Int) (s.readIdx : Int) ≠ 0)
    (hslot : s.ready s.writeIdx = false) :
    ((FrameLoaderModel.WriterBody false false seekOk s).1.writerRunning = false ∧
     (FrameLoaderModel.WriterBody false false seekOk s).2.1 =
       FrameLoaderModel.WriterOutcome.stopped ∧
     (FrameLoaderModel.WriterBody false false seekOk s).2.2 = 0) ∧
    ((FrameLoaderModel.WriterBody true false seekOk s).2.2 = 1) ∧
    ((FrameLoaderModel.WriterBody true false false s).1.writerRunning = false ∧
     (FrameLoaderModel.WriterBody true false false s).2.1 =
       FrameLoaderModel.WriterOutcome.stopped) ∧
    ((FrameLoaderModel.WriterBody true false true s).1.writerRunning = true ∧
     (FrameLoaderModel.WriterBody true false true s).2.1 =
       FrameLoaderModel.WriterOutcome.looped ∧
     (FrameLoaderModel.WriterBody true false true s).1.writeIdx = s.writeIdx ∧
     (∀ i, (FrameLoaderModel.WriterBody true false true s).1.ready i = s.ready i) ∧
     (FrameLoaderModel.WriterBody true false true s).1.readIdx = s.readIdx) := by
  unfold FrameLoaderModel.WriterBody
  simp only [hrun, hslot]
  cases seekOk <;> simp [hfree, hrun]

/-- Witness for C5 on `sampleEmpty` (writer running, 7 free slots, slot 0 not
ready), checking the unchanged-ready clause at slot 0. -/
theorem C5_end_of_stream_handling_witness :
    sampleEmpty.writerRunning = true ∧
    FrameLoaderModel.ComputeFreeSlots (sampleEmpty.writeIdx : Int)
      (sampleEmpty.readIdx : Int) ≠ 0 ∧
    sampleEmpty.ready sampleEmpty.writeIdx = false ∧
    (FrameLoaderModel.WriterBody false false true sampleEmpty).1.writerRunning = false ∧
    (FrameLoaderModel.WriterBody true false true sampleEmpty).2.2 = 1 ∧
    (FrameLoaderModel.WriterBody true false false sampleEmpty).1.writerRunning = false ∧
    (FrameLoaderModel.WriterBody true false true sampleEmpty).1.writerRunning = true ∧
    (FrameLoaderModel.WriterBody true false true sampleEmpty).1.writeIdx =
      sampleEmpty.writeIdx ∧
    (FrameLoaderModel.WriterBody true false true sampleEmpty).1.ready 0 =
      sampleEmpty.ready 0 := by
  have h := C5_end_of_stream_handling true sampleEmpty (by decide) (by decide) (by decide)
  have h2 := C5_end_of_stream_handling false sampleEmpty (by decide) (by decide) (by decide)
  exact ⟨by decide, by decide, by decide, h.1.1, h.2.1, h2.2.2.1.1, h.2.2.2.1,
    h.2.2.2.2.2.1, h.2.2.2.2.2.2.1 0⟩

/-- C6 (amended): a failed `decode_next_frame` call (the decoder reports
end-of-stream and other decode errors identically, by returning false) stops
the producer exactly when looping is disabled or the subsequent
`seek_to_start` fails; with looping enabled and a successful seek the
producer keeps running, so a non-EOS decode error is not fatal in that
case. -/
theorem C6_decode_failure_fatality (looping seekOk : Bool) (s : FrameLoaderModel.MState)
    (hrun : s.writerRunning = true)
    (hfree : FrameLoaderModel.ComputeFreeSlots (s.writeIdx : Int) (s.readIdx : Int) ≠ 0)
    (hslot : s.ready s.writeIdx = false) :
    (FrameLoaderModel.WriterBody looping false seekOk s).1.writerRunning = false ↔
      (looping = false ∨ seekOk = false) := by
  unfold FrameLoaderModel.WriterBody
  cases looping <;> cases seekOk <;> simp [hrun, hfree, hslot]

/-- C6 counterexample: a decode failure (which, per the decoder contract,
covers non-EOS decode errors) with looping enabled and a successful seek
leaves the producer running — it does not stop regardless of the looping
flag as claimed. -/
theorem C6_counterexample_error_with_looping_continues :
    sampleEmpty.writerRunning = true ∧
    (FrameLoaderModel.WriterBody true false true sampleEmpty).1.writerRunning = true ∧
    (FrameLoaderModel.WriterBody true false true sampleEmpty).2.1 =
      FrameLoaderModel.WriterOutcome.looped := by
  decide

/-- Witness for C6 at `looping = false` on `sampleEmpty`: the producer stops. -/
theorem C6_decode_failure_fatality_witness :
    sampleEmpty.writerRunning = true ∧
    FrameLoaderModel.ComputeFreeSlots (sampleEmpty.writeIdx : Int)
      (sampleEmpty.readIdx : Int) ≠ 0 ∧
    sampleEmpty.ready sampleEmpty.writeIdx = false ∧
    ((FrameLoaderModel.WriterBody false false true sampleEmpty).1.writerRunning = false ↔
      ((false : Bool) = false ∨ (true : Bool) = false)) := by
  exact ⟨by decide, by decide, by decide,
    C6_decode_failure_fatality false true sampleEmpty (by decide) (by decide) (by decide)⟩

namespace WriterCtl

lemma ctlInv_init : CtlInv initCtl := rfl

lemma ctlInv_step {c c' : Ctl} (h : CtlStep c c') (hc : CtlInv c) : CtlInv c' := by
  unfold CtlInv at hc ⊢
  cases h with
  | start =>
    unfold StartBackgroundWriter
    cases hb : c.writerRunning <;> rw [hb] at hc <;> simp [hb, hc]
  | stop =>
    unfold StopBackgroundWriter
    cases hb : c.writerRunning <;> rw [hb] at hc <;> simp [hb, hc]
  | selfExit h1 =>
    cases hb : c.writerRunning <;> rw [hb] at hc <;> simp at hc <;> simp <;> omega

lemma ctlInv_reachable {c : Ctl} (h : CtlReachable c) : CtlInv c := by
  induction h with
  | refl => exact ctlInv_init
  | tail _ hstep ih => exact ctlInv_step hstep ih

end WriterCtl

/-- C8: in every reachable lifecycle state, `StartBackgroundWriter` while
already running spawns nothing and changes nothing; `StopBackgroundWriter`
while not running (including the never-started state) returns without any
effect; there is never more than one live writer thread, and in particular a
Stop immediately followed by a Start leaves at most one. -/
theorem C8_start_stop_idempotent (c : WriterCtl.Ctl) (h : WriterCtl.CtlReachable c) :
    (c.writerRunning = true → WriterCtl.StartBackgroundWriter c = (c, false)) ∧
    (c.writerRunning = false → WriterCtl.StopBackgroundWriter c = c) ∧
    WriterCtl.StopBackgroundWriter WriterCtl.initCtl = WriterCtl.initCtl ∧
    c.liveThreads ≤ 1 ∧
    ((WriterCtl.StartBackgroundWriter (WriterCtl.StopBackgroundWriter c)).1).liveThreads ≤ 1 := by
  have hinv := WriterCtl.ctlInv_reachable h
  unfold WriterCtl.CtlInv at hinv
  refine ⟨?_, ?_, rfl, ?_, ?_⟩
  · intro hr
    unfold WriterCtl.StartBackgroundWriter
    rw [if_pos hr]
  · intro hr
    unfold WriterCtl.StopBackgroundWriter
    rw [if_pos hr]
  · rw [hinv]
    split <;> norm_num
  · unfold WriterCtl.StopBackgroundWriter WriterCtl.StartBackgroundWriter
    cases hb : c.writerRunning <;> rw [hb] at hinv <;> simp [hb, hinv]

/-- Witness for C8 at the never-started state (reachable by the empty step
sequence). -/
theorem C8_start_stop_idempotent_witness :
    WriterCtl.CtlReachable WriterCtl.initCtl ∧
    WriterCtl.StopBackgroundWriter WriterCtl.initCtl = WriterCtl.initCtl ∧
    WriterCtl.initCtl.liveThreads ≤ 1 ∧
    ((WriterCtl.StartBackgroundWriter
      (WriterCtl.StopBackgroundWriter WriterCtl.initCtl)).1).liveThreads ≤ 1 := by
  have h := C8_start_stop_idempotent WriterCtl.initCtl Relation.ReflTransGen.refl
  exact ⟨Relation.ReflTransGen.refl, h.2.1 rfl, h.2.2.2.1, h.2.2.2.2⟩

/-- C10: `LoadManifest` stores 0 into `writeIdx` and `readIdx` and resets
`nextReadTime` to the current time, leaving every ring slot's ready flag and
frame pointer unchanged; in particular, if the slot now at `readIdx` (slot 0)
is still marked ready from a previous producer run, the next due consumer
tick hands it out. -/
theorem C10_load_manifest_reset (now : ℚ) (s : FrameLoaderModel.MState) :
    (FrameLoaderModel.LoadManifestReset now s).writeIdx = 0 ∧
    (FrameLoaderModel.LoadManifestReset now s).readIdx = 0 ∧
    (FrameLoaderModel.LoadManifestReset now s).nextReadTime = now ∧
    (∀ i, (FrameLoaderModel.LoadManifestReset now s).ready i = s.ready i) ∧
    (∀ i, (FrameLoaderModel.LoadManifestReset now s).frame i = s.frame i) ∧
    (s.ready 0 = true → ∀ now2 : ℚ, ∀ fps : Int, ¬ now2 < now →
      (FrameLoaderModel.SwapNextFrame now2 fps (FrameLoaderModel.LoadManifestReset now s)).1
        = true ∧
      (FrameLoaderModel.SwapNextFrame now2 fps
        (FrameLoaderModel.LoadManifestReset now s)).2.framePtr = some 0) := by
  refine ⟨rfl, rfl, rfl, fun i => rfl, fun i => rfl, ?_⟩
  intro hready now2 fps hdue
  have hr : (FrameLoaderModel.LoadManifestReset now s).ready
      (FrameLoaderModel.LoadManifestReset now s).readIdx = true := hready
  have hd : ¬ now2 < (FrameLoaderModel.LoadManifestReset now s).nextReadTime := hdue
  rw [FrameLoaderModel.swapNextFrame_consume now2 fps _ hd hr]
  exact ⟨rfl, rfl⟩

/-- Witness for C10 on `sampleReady0` (slot 0 ready from a previous run),
reloading at time 3 and ticking at time 4. -/
theorem C10_load_manifest_reset_witness :
    (FrameLoaderModel.LoadManifestReset 3 sampleReady0).writeIdx = 0 ∧
    (FrameLoaderModel.LoadManifestReset 3 sampleReady0).readIdx = 0 ∧
    (FrameLoaderModel.LoadManifestReset 3 sampleReady0).nextReadTime = 3 ∧
    (FrameLoaderModel.LoadManifestReset 3 sampleReady0).ready 0 = sampleReady0.ready 0 ∧
    sampleReady0.ready 0 = true ∧
    ¬ (4 : ℚ) < (3 : ℚ) ∧
    (FrameLoaderModel.SwapNextFrame 4 2 (FrameLoaderModel.LoadManifestReset 3 sampleReady0)).1
      = true ∧
    (FrameLoaderModel.SwapNextFrame 4 2
      (FrameLoaderModel.LoadManifestReset 3 sampleReady0)).2.framePtr = some 0 := by
  have h := C10_load_manifest_reset 3 sampleReady0
  have h6 := h.2.2.2.2.2 (by decide) 4 2 (by norm_num)
  exact ⟨h.1, h.2.1, h.2.2.1, h.2.2.2.1 0, by decide, by norm_num, h6.1, h6.2⟩


namespace FrameLoaderModel

lemma computeFreeSlots_eq_zero_iff (w r : Nat) (hw : w < 8) (hr : r < 8) :
    (ComputeFreeSlots (w : Int) (r : Int) = 0 ↔ (w + 8 - r) % 8 = 7) := by
  interval_cases w <;> interval_cases r <;> decide

lemma swapNextFrame_not_due_state (now : ℚ) (fps : Int) (s : MState)
    (h : now < s.nextReadTime) :
    (SwapNextFrame now fps s).2 = s := by
  rw [swapNextFrame_not_due now fps s h]

lemma swapNextFrame_skip_state (now : ℚ) (fps : Int) (s : MState)
    (h : ¬ now < s.nextReadTime) (hr : s.ready s.readIdx = false) :
    (SwapNextFrame now fps s).2 = { s with
      nextReadTime :=
        if s.nextReadTime + framePeriod fps ≤ now then now + framePeriod fps
        else s.nextReadTime + framePeriod fps } := by
  rw [swapNextFrame_skip now fps s h hr]

lemma swapNextFrame_consume_state (now : ℚ) (fps : Int) (s : MState)
    (h : ¬ now < s.nextReadTime) (hr : s.ready s.readIdx = true) :
    (SwapNextFrame now fps s).2 = { s with
      nextReadTime :=
        (if s.nextReadTime + framePeriod fps ≤ now then now + framePeriod fps
         else s.nextReadTime + framePeriod fps),
      framePtr := some s.readIdx,
      frameReady := true,
      ready := Function.update s.ready s.readIdx false,
      readIdx := (s.readIdx + 1) % RING_SIZE } := by
  rw [swapNextFrame_consume now fps s h hr]

lemma writerBody_not_running (looping decodeOk seekOk : Bool) (s : MState)
    (h : s.writerRunning = false) :
    WriterBody looping decodeOk seekOk s = (s, .notRunning, 0) := by
  unfold WriterBody
  rw [if_pos h]

lemma writerBody_ring_full (looping decodeOk seekOk : Bool) (s : MState)
    (h : ¬ s.writerRunning = false)
    (hf : ComputeFreeSlots (s.writeIdx : Int) (s.readIdx : Int) = 0) :
    WriterBody looping decodeOk seekOk s = (s, .ringFull, 0) := by
  unfold WriterBody
  rw [if_neg h, if_pos hf]

lemma writerBody_slot_busy (looping decodeOk seekOk : Bool) (s : MState)
    (h : ¬ s.writerRunning = false)
    (hf : ¬ ComputeFreeSlots (s.writeIdx : Int) (s.readIdx : Int) = 0)
    (hs : ¬ s.ready s.writeIdx = false) :
    WriterBody looping decodeOk seekOk s = (s, .slotBusy, 0) := by
  unfold WriterBody
  rw [if_neg h, if_neg hf, if_neg hs]

lemma writerBody_eos_stop (seekOk : Bool) (s : MState)
    (h : ¬ s.writerRunning = false)
    (hf : ¬ ComputeFreeSlots (s.writeIdx : Int) (s.readIdx : Int) = 0)
    (hs : s.ready s.writeIdx = false) :
    WriterBody false false seekOk s =
      ({ s with frame := Function.update s.frame s.writeIdx (some s.writeIdx),
                writerRunning := false }, .stopped, 0) := by
  unfold WriterBody
  rw [if_neg h, if_neg hf, if_pos hs]
  rfl

lemma writerBody_eos_seek_fail (s : MState)
    (h : ¬ s.writerRunning = false)
    (hf : ¬ ComputeFreeSlots (s.writeIdx : Int) (s.readIdx : Int) = 0)
    (hs : s.ready s.writeIdx = false) :
    WriterBody true false false s =
      ({ s with frame := Function.update s.frame s.writeIdx (some s.writeIdx),
                writerRunning := false }, .stopped, 1) := by
  unfold WriterBody
  rw [if_neg h, if_neg hf, if_pos hs]
  rfl

lemma writerBody_eos_seek_ok (s : MState)
    (h : ¬ s.writerRunning = false)
    (hf : ¬ ComputeFreeSlots (s.writeIdx : Int) (s.readIdx : Int) = 0)
    (hs : s.ready s.writeIdx = false) :
    WriterBody true false true s =
      ({ s with frame := Function.update s.frame s.writeIdx (some s.writeIdx) },
        .looped, 1) := by
  unfold WriterBody
  rw [if_neg h, if_neg hf, if_pos hs]
  rfl

lemma writerBody_produced (looping seekOk : Bool) (s : MState)
    (h : ¬ s.writerRunning = false)
    (hf : ¬ ComputeFreeSlots (s.writeIdx : Int) (s.readIdx : Int) = 0)
    (hs : s.ready s.writeIdx = false) :
    WriterBody looping true seekOk s =
      ({ s with frame := Function.update s.frame s.writeIdx (some s.writeIdx),
                ready := Function.update s.ready s.writeIdx true,
                writeIdx := (s.writeIdx + 1) % RING_SIZE }, .produced, 0) := by
  unfold WriterBody
  rw [if_neg h, if_neg hf, if_pos hs]
  rfl

end FrameLoaderModel

namespace FrameLoaderModel

lemma inv_init (t0 : ℚ) : Inv (InitState t0) := by
  refine ⟨by norm_num [RING_SIZE, InitState], by norm_num [RING_SIZE, InitState], ?_, ?_⟩
  · intro i hi
    constructor
    · intro hfalse
      simp [InitState] at hfalse
    · intro hmem
      exfalso
      revert hmem
      simp only [InitState, InOccupied, RING_SIZE]
      omega
  · intro i
    left
    rfl

lemma inv_step {s s' : MState} (h : Step s s') (hInv : Inv s) : Inv s' := by
  obtain ⟨hr8, hw8, hflags, hframe⟩ := hInv
  have hr8' : s.readIdx < 8 := hr8
  have hw8' : s.writeIdx < 8 := hw8
  cases h with
  | cons now fps =>
    by_cases hdue : now < s.nextReadTime
    · rw [swapNextFrame_not_due_state now fps s hdue]
      exact ⟨hr8, hw8, hflags, hframe⟩
    · cases hready : s.ready s.readIdx with
      | false =>
        rw [swapNextFrame_skip_state now fps s hdue hready]
        exact ⟨hr8, hw8, hflags, hframe⟩
      | true =>
        rw [swapNextFrame_consume_state now fps s hdue hready]
        have hocc : InOccupied s.readIdx s.writeIdx s.readIdx := (hflags _ hr8).mp hready
        have hocc' : (s.readIdx + 8 - s.readIdx) % 8 < (s.writeIdx + 8 - s.readIdx) % 8 := hocc
        refine ⟨Nat.mod_lt _ (by norm_num [RING_SIZE]), hw8, ?_, hframe⟩
        intro i hi
        have hi' : i < 8 := hi
        dsimp only
        rcases eq_or_ne i s.readIdx with rfl | hne
        · rw [Function.update_same]
          constructor
          · intro hfalse
            exact absurd hfalse (by simp)
          · intro hmem
            exfalso
            have hmem' : (s.readIdx + RING_SIZE - (s.readIdx + 1) % RING_SIZE) % RING_SIZE <
                (s.writeIdx + RING_SIZE - (s.readIdx + 1) % RING_SIZE) % RING_SIZE := hmem
            simp only [RING_SIZE] at hmem'
            omega
        · rw [Function.update_noteq hne]
          rw [hflags i hi]
          show InOccupied s.readIdx s.writeIdx i ↔
            InOccupied ((s.readIdx + 1) % RING_SIZE) s.writeIdx i
          simp only [InOccupied, RING_SIZE]
          constructor <;> intro hmem <;> omega
  | prod looping decodeOk seekOk =>
    by_cases hrun : s.writerRunning = false
    · rw [writerBody_not_running looping decodeOk seekOk s hrun]
      exact ⟨hr8, hw8, hflags, hframe⟩
    · by_cases hfree : ComputeFreeSlots (s.writeIdx : Int) (s.readIdx : Int) = 0
      · rw [writerBody_ring_full looping decodeOk seekOk s hrun hfree]
        exact ⟨hr8, hw8, hflags, hframe⟩
      · by_cases hslot : s.ready s.writeIdx = false
        · have hframe1 : ∀ i, Function.update s.frame s.writeIdx (some s.writeIdx) i = none ∨
              Function.update s.frame s.writeIdx (some s.writeIdx) i = some i := by
            intro i
            rcases eq_or_ne i s.writeIdx with rfl | hne
            · right
              rw [Function.update_same]
            · rw [Function.update_noteq hne]
              exact hframe i
          have hocc7 : (s.writeIdx + 8 - s.readIdx) % 8 ≠ 7 := by
            intro hc
            exact hfree ((computeFreeSlots_eq_zero_iff s.writeIdx s.readIdx hw8' hr8').mpr hc)
          cases decodeOk with
          | false =>
            cases looping with
            | false =>
              rw [writerBody_eos_stop seekOk s hrun hfree hslot]
              exact ⟨hr8, hw8, hflags, hframe1⟩
            | true =>
              cases seekOk with
              | false =>
                rw [writerBody_eos_seek_fail s hrun hfree hslot]
                exact ⟨hr8, hw8, hflags, hframe1⟩
              | true =>
                rw [writerBody_eos_seek_ok s hrun hfree hslot]
                exact ⟨hr8, hw8, hflags, hframe1⟩
          | true =>
            rw [writerBody_produced looping seekOk s hrun hfree hslot]
            refine ⟨hr8, Nat.mod_lt _ (by norm_num [RING_SIZE]), ?_, hframe1⟩
            intro i hi
            have hi' : i < 8 := hi
            dsimp only
            rcases eq_or_ne i s.writeIdx with rfl | hne
            · rw [Function.update_same]
              constructor
              · intro _
                show (s.writeIdx + RING_SIZE - s.readIdx) % RING_SIZE <
                  ((s.writeIdx + 1) % RING_SIZE + RING_SIZE - s.readIdx) % RING_SIZE
                simp only [RING_SIZE]
                omega
              · intro _
                rfl
            · rw [Function.update_noteq hne]
              rw [hflags i hi]
              show InOccupied s.readIdx s.writeIdx i ↔
                InOccupied s.readIdx ((s.writeIdx + 1) % RING_SIZE) i
              simp only [InOccupied, RING_SIZE]
              constructor <;> intro hmem <;> omega
        · rw [writerBody_slot_busy looping decodeOk seekOk s hrun hfree hslot]
          exact ⟨hr8, hw8, hflags, hframe⟩

lemma inv_reachable {s : MState} (h : Reachable s) : Inv s := by
  obtain ⟨t0, hsteps⟩ := h
  induction hsteps with
  | refl => exact inv_init t0
  | tail _ hstep ih => exact inv_step hstep ih

end FrameLoaderModel

/-- C1: in every state reachable from the initial state (indices 0, all ready
flags false) by producer iterations and consumer calls, a slot's ready flag
is true exactly when its index lies in the occupied range
`[readIdx, writeIdx)` modulo `RING_SIZE`; consequently the slot the producer
decodes into (`writeIdx`) always has `ready = false`, and `SwapNextFrame`
only returns true when the slot it hands out had `ready = true`. -/
theorem C1_ready_iff_occupied (s : FrameLoaderModel.MState)
    (h : FrameLoaderModel.Reachable s) :
    (∀ i, i < FrameLoaderModel.RING_SIZE →
      (s.ready i = true ↔ FrameLoaderModel.InOccupied s.readIdx s.writeIdx i)) ∧
    s.ready s.writeIdx = false ∧
    (∀ now : ℚ, ∀ fps : Int,
      (FrameLoaderModel.SwapNextFrame now fps s).1 = true → s.ready s.readIdx = true) := by
  obtain ⟨hr8, hw8, hflags, _⟩ := FrameLoaderModel.inv_reachable h
  refine ⟨hflags, ?_, ?_⟩
  · cases hb : s.ready s.writeIdx with
    | false => rfl
    | true =>
      exfalso
      have hmem := (hflags s.writeIdx hw8).mp hb
      have hmem' : (s.writeIdx + 8 - s.readIdx) % 8 <
          (s.writeIdx + 8 - s.readIdx) % 8 := hmem
      omega
  · intro now fps htrue
    by_cases hdue : now < s.nextReadTime
    · rw [FrameLoaderModel.swapNextFrame_not_due now fps s hdue] at htrue
      cases htrue
    · cases hready : s.ready s.readIdx with
      | false =>
        rw [FrameLoaderModel.swapNextFrame_skip now fps s hdue hready] at htrue
        cases htrue
      | true => rfl

/-- Witness for C1 at the initial state (reachable by the empty step
sequence), instantiating the occupancy equivalence at slot 0. -/
theorem C1_ready_iff_occupied_witness :
    FrameLoaderModel.Reachable (FrameLoaderModel.InitState 0) ∧
    ((FrameLoaderModel.InitState 0).ready 0 = true ↔
      FrameLoaderModel.InOccupied (FrameLoaderModel.InitState 0).readIdx
        (FrameLoaderModel.InitState 0).writeIdx 0) ∧
    (FrameLoaderModel.InitState 0).ready (FrameLoaderModel.InitState 0).writeIdx = false := by
  have hreach : FrameLoaderModel.Reachable (FrameLoaderModel.InitState 0) :=
    ⟨0, Relation.ReflTransGen.refl⟩
  have h := C1_ready_iff_occupied _ hreach
  exact ⟨hreach, h.1 0 (by norm_num [FrameLoaderModel.RING_SIZE]), h.2.1⟩

/-- C9 (amended): every ring slot only ever references its own frame-pool
entry: in every reachable state, slot `i`'s frame pointer is either null
(its initial value: the association is established lazily by the writer, not
at pool-creation time) or `&framePool[i]`; it never points to another pool
entry. -/
theorem C9_frame_aliases_own_pool_entry (s : FrameLoaderModel.MState)
    (h : FrameLoaderModel.Reachable s) :
    ∀ i, s.frame i = none ∨ s.frame i = some i :=
  (FrameLoaderModel.inv_reachable h).2.2.2

/-- C9 counterexample: from the moment the pool and ring are created
(`Init` resizes them, default-constructing every `FrameSlot` with
`frame = nullptr`), slot 0's frame pointer is null, not `&framePool[0]` as
claimed. -/
theorem C9_counterexample_initial_frame_null :
    (FrameLoaderModel.InitState 0).frame 0 = none ∧
    ¬ (FrameLoaderModel.InitState 0).frame 0 = some 0 :=
  ⟨rfl, by simp [FrameLoaderModel.InitState]⟩

/-- Witness for C9 after one successful producer iteration from the initial
state: slot 0's frame pointer now aliases pool entry 0 (and in particular is
null or `some 0` as the theorem states). -/
theorem C9_frame_aliases_own_pool_entry_witness :
    (FrameLoaderModel.WriterBody true true true (FrameLoaderModel.InitState 0)).1.frame 0
      = none ∨
    (FrameLoaderModel.WriterBody true true true (FrameLoaderModel.InitState 0)).1.frame 0
      = some 0 := by
  have hreach : FrameLoaderModel.Reachable
      (FrameLoaderModel.WriterBody true true true (FrameLoaderModel.InitState 0)).1 :=
    ⟨0, Relation.ReflTransGen.single
      (FrameLoaderModel.Step.prod true true true (FrameLoaderModel.InitState 0))⟩
  exact C9_frame_aliases_own_pool_entry _ hreach 0
